import Mathlib

/-!
Verification of the gcert certificate-generation module.

The Go code is a thin orchestration layer over the standard crypto
library.  We embed the repository code shallowly: the pure decision
logic (option resolution, key-algorithm selection, template
construction, host classification, the branching of the write and
verify paths) is translated directly from the source, while calls into
the external crypto and OS libraries (key generation, DER parsing,
IP-literal parsing, time parsing, certificate signing, the file
system) are abstracted as an explicit environment `Env` of oracles.
`Generate` threads a file-system value and records a trace of
externally observable events so that ordering properties can be
stated.
-/

namespace GCert

/-- Opaque stand-in for DER byte strings handled by the crypto library. -/
abbrev Bytes := Nat

/-- Abstract IP address value as returned by the library IP parser. -/
structure IPAddr where
  octets : List Nat
deriving DecidableEq

/-- The four named elliptic curves supported by the code. -/
inductive Curve
  | p224
  | p256
  | p384
  | p521
deriving DecidableEq

/-- Source constant CurveP224 from options.go. -/
def CurveP224 : String := "P224"

/-- Source constant CurveP256 from options.go. -/
def CurveP256 : String := "P256"

/-- Source constant CurveP384 from options.go. -/
def CurveP384 : String := "P384"

/-- Source constant CurveP521 from options.go. -/
def CurveP521 : String := "P521"

/-- The key algorithm selected by the switch on the curve selector. -/
inductive KeyAlgo
  | rsa (bits : Int)
  | ecdsa (c : Curve)
  | ed25519
deriving DecidableEq

/-- Private keys: one of the three algorithm families; the id stands
for the concrete key material produced by the library. -/
inductive PrivKey
  | rsa (bits : Int) (id : Nat)
  | ecdsa (c : Curve) (id : Nat)
  | ed25519 (id : Nat)
deriving DecidableEq

/-- Public keys corresponding to each private-key family. -/
inductive PubKey
  | rsa (id : Nat)
  | ecdsa (c : Curve) (id : Nat)
  | ed25519 (id : Nat)
deriving DecidableEq

/-- The publicKey helper of the source: the public half of a key. -/
def publicKey : PrivKey → PubKey
  | .rsa _ id => .rsa id
  | .ecdsa c id => .ecdsa c id
  | .ed25519 id => .ed25519 id

/-- The type assertion priv.(*rsa.PrivateKey) of the source. -/
def PrivKey.isRSA : PrivKey → Bool
  | .rsa _ _ => true
  | _ => false

/-- Whether a public key belongs to the RSA family. -/
def PubKey.isRSA : PubKey → Bool
  | .rsa _ => true
  | _ => false

/-- x509.KeyUsageDigitalSignature bit. -/
def keyUsageDigitalSignature : Nat := 1

/-- x509.KeyUsageKeyEncipherment bit. -/
def keyUsageKeyEncipherment : Nat := 4

/-- x509.KeyUsageCertSign bit. -/
def keyUsageCertSign : Nat := 32

/-- Extended key usages used by the code. -/
inductive ExtKeyUsage
  | serverAuth
deriving DecidableEq

/-- The x509.Certificate template fields the code sets or reads. -/
structure Certificate where
  serialNumber : Nat
  subjectOrg : List String
  notBefore : Int
  notAfter : Int
  keyUsage : Nat
  extKeyUsage : List ExtKeyUsage
  basicConstraintsValid : Bool
  ipAddresses : List IPAddr
  dnsNames : List String
  isCA : Bool
deriving DecidableEq

/-- What a file on disk decodes to: a single PEM block with a type and
DER payload, or data that is not valid PEM (this also models an empty,
freshly truncated file). -/
inductive FileData
  | pem (blockType : String) (bytes : Bytes)
  | notPem
deriving DecidableEq

/-- The file system: a partial map from paths to decoded contents;
none models a missing or unreadable file. -/
abbrev Fs := String → Option FileData

/-- Write one file, leaving every other path unchanged. -/
def setFile (fs : Fs) (path : String) (d : FileData) : Fs :=
  fun p => if p = path then some d else fs p

/-- The options struct of options.go. -/
structure Options where
  parentCert : String
  parentKey : String
  certFileName : String
  keyFileName : String
  validFrom : String
  validFor : Int
  rsaBits : Int
  ecdsaCurve : String
  ed25519Key : Bool
  isCA : Bool
deriving DecidableEq

/-- The Option type of options.go: a mutator of the options value. -/
abbrev OptionF := Options → Options

/-- initOptions from options.go: the default configuration.
validFor is 365 * 24 * time.Hour in nanoseconds. -/
def initOptions : Options :=
  { parentCert := ""
    parentKey := ""
    certFileName := "cert.pem"
    keyFileName := "key.pem"
    validFrom := ""
    validFor := 365 * 24 * 3600 * 1000000000
    rsaBits := 2048
    ecdsaCurve := ""
    ed25519Key := false
    isCA := false }

/-- WithKeyFileName from options.go. -/
def WithKeyFileName (keyFileName : String) : OptionF :=
  fun o => { o with keyFileName := keyFileName }

/-- WithCertFileName from options.go. -/
def WithCertFileName (certFileName : String) : OptionF :=
  fun o => { o with certFileName := certFileName }

/-- WithSignByParent from options.go: sets both parent paths. -/
def WithSignByParent (parentCertPath parentKeyPath : String) : OptionF :=
  fun o => { o with parentCert := parentCertPath, parentKey := parentKeyPath }

/-- WithStartDate from options.go. -/
def WithStartDate (startDate : String) : OptionF :=
  fun o => { o with validFrom := startDate }

/-- WithDuration from options.go. -/
def WithDuration (duration : Int) : OptionF :=
  fun o => { o with validFor := duration }

/-- WithCA from options.go. -/
def WithCA : OptionF :=
  fun o => { o with isCA := true }

/-- WithRSABits from options.go. -/
def WithRSABits (bits : Int) : OptionF :=
  fun o => { o with rsaBits := bits }

/-- WithP224 from options.go. -/
def WithP224 : OptionF :=
  fun o => { o with ecdsaCurve := CurveP224 }

/-- WithP256 from options.go. -/
def WithP256 : OptionF :=
  fun o => { o with ecdsaCurve := CurveP256 }

/-- WithP384 from options.go. -/
def WithP384 : OptionF :=
  fun o => { o with ecdsaCurve := CurveP384 }

/-- WithP521 from options.go. -/
def WithP521 : OptionF :=
  fun o => { o with ecdsaCurve := CurveP521 }

/-- WithED25519 from options.go. -/
def WithED25519 : OptionF :=
  fun o => { o with ed25519Key := true }

/-- Option resolution in Generate: fold the callers mutators, in
order, over the defaults. -/
def resolveOptions (opts : List OptionF) : Options :=
  opts.foldl (fun o f => f o) initOptions

/-- One distinct constructor per error-return site of the source.
The readFileFailed and the two DER-parse constructors carry the data
the wrapped underlying error depends on. -/
inductive GenError
  | missingHost
  | unrecognizedCurve (curve : String)
  | keyGenFailed
  | dateParseFailed (value : String)
  | serialFailed
  | readFileFailed (path : String)
  | certPemParseFailed
  | certDerParseFailed (bytes : Bytes)
  | keyPemParseFailed
  | keyDerParseFailed (bytes : Bytes)
  | createCertFailed
  | openCertFailed (path : String)
  | writeCertFailed (path : String)
  | closeCertFailed (path : String)
  | openKeyFailed (path : String)
  | marshalKeyFailed
  | writeKeyFailed (path : String)
  | closeKeyFailed (path : String)
  | verifyFailed (cause : Nat)
deriving DecidableEq

/-- Oracles for the external library and OS calls the code makes.
Key generation draws on the random source, so each generator returns
an optional key id (none models a generation failure); the Ok flags
give the outcomes of the file open, write and close system calls. -/
structure Env where
  now : Int
  timeParse : String → String → Option Int
  parseIP : String → Option IPAddr
  serialRand : Option Nat
  rsaGen : Int → Option Nat
  ecdsaGen : Curve → Option Nat
  edGen : Option Nat
  fs : Fs
  parseCertDer : Bytes → Option Certificate
  parseKeyDer : Bytes → Option PrivKey
  createCertificate : Certificate → Certificate → PubKey → PrivKey → Option Bytes
  marshalPkcs8 : PrivKey → Option Bytes
  openCertOk : Bool
  writeCertOk : Bool
  closeCertOk : Bool
  openKeyOk : Bool
  writeKeyOk : Bool
  closeKeyOk : Bool
  verifyChain : Certificate → String → List Certificate → Int → Option Nat

/-- ParsePemCertFile from the source: read a file, decode a PEM block,
check the block type, parse the DER payload as a certificate. -/
def ParsePemCertFile (env : Env) (path : String) : Except GenError Certificate :=
  match env.fs path with
  | none => .error (.readFileFailed path)
  | some .notPem => .error .certPemParseFailed
  | some (.pem ty bytes) =>
    if ty = "CERTIFICATE" then
      match env.parseCertDer bytes with
      | none => .error (.certDerParseFailed bytes)
      | some c => .ok c
    else .error .certPemParseFailed

/-- ParsePemKeyFile from the source: read a file, decode a PEM block,
check the block type, parse the DER payload as a PKCS8 private key. -/
def ParsePemKeyFile (env : Env) (path : String) : Except GenError PrivKey :=
  match env.fs path with
  | none => .error (.readFileFailed path)
  | some .notPem => .error .keyPemParseFailed
  | some (.pem ty bytes) =>
    if ty = "PRIVATE KEY" then
      match env.parseKeyDer bytes with
      | none => .error (.keyDerParseFailed bytes)
      | some k => .ok k
    else .error .keyPemParseFailed

/-- The switch on o.ecdsaCurve in Generate, lines 39-56: first match
on the curve selector decides the key algorithm. -/
def keyAlgoOf (o : Options) : Except GenError KeyAlgo :=
  if o.ecdsaCurve = "" then
    if o.ed25519Key then .ok .ed25519 else .ok (.rsa o.rsaBits)
  else if o.ecdsaCurve = CurveP224 then .ok (.ecdsa .p224)
  else if o.ecdsaCurve = CurveP256 then .ok (.ecdsa .p256)
  else if o.ecdsaCurve = CurveP384 then .ok (.ecdsa .p384)
  else if o.ecdsaCurve = CurveP521 then .ok (.ecdsa .p521)
  else .error (.unrecognizedCurve o.ecdsaCurve)

/-- Run the library key generator for the selected algorithm. -/
def genKey (env : Env) : KeyAlgo → Option PrivKey
  | .rsa bits => (env.rsaGen bits).map (PrivKey.rsa bits)
  | .ecdsa c => (env.ecdsaGen c).map (PrivKey.ecdsa c)
  | .ed25519 => env.edGen.map PrivKey.ed25519

/-- Lines 72-80 of Generate: notBefore is time.Now when no start date
is configured, otherwise the result of time.Parse with the fixed
layout, a parse failure being an error. -/
def notBeforeOf (env : Env) (o : Options) : Except GenError Int :=
  if o.validFrom = "" then .ok env.now
  else
    match env.timeParse "Jan 2 15:04:05 2006" o.validFrom with
    | none => .error (.dateParseFailed o.validFrom)
    | some t => .ok t

/-- strings.Split on a single comma, over the character list: every
comma starts a new token, empty tokens are kept, nothing is
trimmed. -/
def splitComma : List Char → List (List Char)
  | [] => [[]]
  | c :: rest =>
    match splitComma rest with
    | [] => [[c]]
    | g :: gs => if c = ',' then [] :: g :: gs else (c :: g) :: gs

/-- strings.Split(host, ",") of the source. -/
def splitHost (s : String) : List String :=
  (splitComma s.data).map String.mk

/-- The host loop of Generate, lines 105-111: each token that parses
as an IP literal goes to IPAddresses, every other token to DNSNames,
in input order. -/
def classifyHosts (parseIP : String → Option IPAddr) :
    List String → List IPAddr × List String
  | [] => ([], [])
  | h :: t =>
    let rest := classifyHosts parseIP t
    match parseIP h with
    | some ip => (ip :: rest.1, rest.2)
    | none => (rest.1, h :: rest.2)

/-- Externally observable events of one Generate call, in order:
key generation, the single library signing call, and the file
operations (perm is the mode given to open). -/
inductive Event
  | keyGen (a : KeyAlgo)
  | createCert (tmpl issuer : Certificate) (pub : PubKey) (signer : PrivKey)
  | openFile (path : String) (perm : Nat)
  | writeBlock (path blockType : String) (bytes : Bytes)
  | closeFile (path : String)
deriving DecidableEq

/-- Everything Generate has in hand after lines 27-129: the resolved
options, the fresh key, the template, and the issuer certificate and
signer key (the template and fresh key themselves on the self-signed
path). -/
structure Prep where
  o : Options
  priv : PrivKey
  tmpl : Certificate
  parentCert : Certificate
  parentKey : PrivKey
deriving DecidableEq

/-- The pure template construction of Generate, lines 64-116: the
key-usage bits from the subject key family, the fixed subject, the
validity window, the classified host lists, and the CA flag folded
into IsCA and CertSign. -/
def buildTemplate (env : Env) (o : Options) (priv : PrivKey) (host : String)
    (notBefore : Int) (serial : Nat) : Certificate :=
  let ku :=
    if priv.isRSA then keyUsageDigitalSignature ||| keyUsageKeyEncipherment
    else keyUsageDigitalSignature
  let cls := classifyHosts env.parseIP (splitHost host)
  let base : Certificate :=
    { serialNumber := serial
      subjectOrg := ["Acme Co"]
      notBefore := notBefore
      notAfter := notBefore + o.validFor
      keyUsage := ku
      extKeyUsage := [.serverAuth]
      basicConstraintsValid := true
      ipAddresses := cls.1
      dnsNames := cls.2
      isCA := false }
  if o.isCA then
    { base with isCA := true, keyUsage := base.keyUsage ||| keyUsageCertSign }
  else base

/-- Lines 72-129 of Generate, after key generation: validity window,
serial number, template construction, and the choice between the
self-signed issuer (the template and fresh key themselves) and the
parent certificate and key loaded from disk. -/
def prepareAfterKey (env : Env) (o : Options) (priv : PrivKey) (host : String) :
    Except GenError Prep :=
  match notBeforeOf env o with
  | .error e => .error e
  | .ok notBefore =>
    match env.serialRand with
    | none => .error .serialFailed
    | some serial =>
      let tmpl := buildTemplate env o priv host notBefore serial
      if o.parentCert = "" then .ok ⟨o, priv, tmpl, tmpl, priv⟩
      else
        match ParsePemCertFile env o.parentCert with
        | .error e => .error e
        | .ok pc =>
          match ParsePemKeyFile env o.parentKey with
          | .error e => .error e
          | .ok pk => .ok ⟨o, priv, tmpl, pc, pk⟩

/-- Lines 27-129 of Generate: host precondition, option resolution,
key-algorithm selection and generation, then the rest of the
preparation; the trace records the key-generation call. -/
def prepare (env : Env) (host : String) (opts : List OptionF) :
    Except GenError Prep × List Event :=
  if host = "" then (.error .missingHost, [])
  else
    let o := resolveOptions opts
    match keyAlgoOf o with
    | .error e => (.error e, [])
    | .ok algo =>
      match genKey env algo with
      | none => (.error .keyGenFailed, [.keyGen algo])
      | some priv => (prepareAfterKey env o priv host, [.keyGen algo])

/-- Lines 136-165 of Generate: create and write the certificate file
(os.Create uses mode 0666, that is 438), close it, open the key file
with O_CREATE and O_TRUNC at mode 0600 (that is 384), marshal the key
as PKCS8, write and close.  Opening truncates the file to notPem;
every failure returns at once with the file system as updated so
far. -/
def writeArtifacts (env : Env) (dest : String) (o : Options) (der : Bytes)
    (priv : PrivKey) (fs : Fs) : Except GenError Unit × Fs × List Event :=
  let certPath := dest ++ "/" ++ o.certFileName
  if env.openCertOk = false then (.error (.openCertFailed certPath), fs, [])
  else
    let fs1 := setFile fs certPath .notPem
    if env.writeCertOk = false then
      (.error (.writeCertFailed certPath), fs1, [.openFile certPath 438])
    else
      let fs2 := setFile fs1 certPath (.pem "CERTIFICATE" der)
      if env.closeCertOk = false then
        (.error (.closeCertFailed certPath), fs2,
          [.openFile certPath 438, .writeBlock certPath "CERTIFICATE" der])
      else
        let keyPath := dest ++ "/" ++ o.keyFileName
        if env.openKeyOk = false then
          (.error (.openKeyFailed keyPath), fs2,
            [.openFile certPath 438, .writeBlock certPath "CERTIFICATE" der,
             .closeFile certPath])
        else
          let fs3 := setFile fs2 keyPath .notPem
          match env.marshalPkcs8 priv with
          | none =>
            (.error .marshalKeyFailed, fs3,
              [.openFile certPath 438, .writeBlock certPath "CERTIFICATE" der,
               .closeFile certPath, .openFile keyPath 384])
          | some pk =>
            if env.writeKeyOk = false then
              (.error (.writeKeyFailed keyPath), fs3,
                [.openFile certPath 438, .writeBlock certPath "CERTIFICATE" der,
                 .closeFile certPath, .openFile keyPath 384])
            else
              let fs4 := setFile fs3 keyPath (.pem "PRIVATE KEY" pk)
              if env.closeKeyOk = false then
                (.error (.closeKeyFailed keyPath), fs4,
                  [.openFile certPath 438, .writeBlock certPath "CERTIFICATE" der,
                   .closeFile certPath, .openFile keyPath 384,
                   .writeBlock keyPath "PRIVATE KEY" pk])
              else
                (.ok (), fs4,
                  [.openFile certPath 438, .writeBlock certPath "CERTIFICATE" der,
                   .closeFile certPath, .openFile keyPath 384,
                   .writeBlock keyPath "PRIVATE KEY" pk, .closeFile keyPath])

/-- The outcome of one Generate call: the returned error value, the
final file system, and the trace of external events. -/
structure GenOut where
  res : Except GenError Unit
  fs : Fs
  trace : List Event

/-- Generate from the source: prepare, then the single
x509.CreateCertificate call with (template, issuer, subject public
key, signer key), then persistence. -/
def Generate (env : Env) (host dest : String) (opts : List OptionF) : GenOut :=
  match prepare env host opts with
  | (.error e, tr) => ⟨.error e, env.fs, tr⟩
  | (.ok pr, tr) =>
    let ev := Event.createCert pr.tmpl pr.parentCert (publicKey pr.priv) pr.parentKey
    match env.createCertificate pr.tmpl pr.parentCert (publicKey pr.priv) pr.parentKey with
    | none => ⟨.error .createCertFailed, env.fs, tr ++ [ev]⟩
    | some der =>
      let w := writeArtifacts env dest pr.o der pr.priv env.fs
      ⟨w.1, w.2.1, tr ++ ev :: w.2.2⟩

/-- Verify from the source: parse the root and leaf certificate
files, build a pool holding exactly the one root, and ask the library
to verify the leaf for the DNS name at the current time. -/
def Verify (env : Env) (rootCertPath certPath dnsName : String) : Except GenError Unit :=
  match ParsePemCertFile env rootCertPath with
  | .error e => .error e
  | .ok rootCert =>
    match ParsePemCertFile env certPath with
    | .error e => .error e
    | .ok cert =>
      match env.verifyChain cert dnsName [rootCert] env.now with
      | some cause => .error (.verifyFailed cause)
      | none => .ok ()

/-! Concrete sample data used to instantiate the theorems below. -/

/-- A concrete certificate value, standing for a parsed CA
certificate. -/
def certA : Certificate :=
  { serialNumber := 1
    subjectOrg := ["Acme Co"]
    notBefore := 0
    notAfter := 10
    keyUsage := 33
    extKeyUsage := [.serverAuth]
    basicConstraintsValid := true
    ipAddresses := []
    dnsNames := ["cadomain.cert"]
    isCA := true }

/-- A concrete oracle environment: every external call succeeds and
the file system starts empty. -/
def env0 : Env :=
  { now := 100
    timeParse := fun _ s => if s = "Feb 3 10:00:00 2020" then some 50 else none
    parseIP := fun s => if s = "10.0.0.1" then some ⟨[10, 0, 0, 1]⟩ else none
    serialRand := some 7
    rsaGen := fun _ => some 1
    ecdsaGen := fun _ => some 2
    edGen := some 3
    fs := fun _ => none
    parseCertDer := fun b => if b = 11 then some certA else none
    parseKeyDer := fun b => if b = 12 then some (.rsa 2048 9) else none
    createCertificate := fun _ _ _ _ => some 21
    marshalPkcs8 := fun _ => some 22
    openCertOk := true
    writeCertOk := true
    closeCertOk := true
    openKeyOk := true
    writeKeyOk := true
    closeKeyOk := true
    verifyChain := fun _ d _ _ => if d = "test.example.com" then none else some 5 }

/-- env0 with a parent certificate file and a parent key file
present on disk. -/
def env1 : Env :=
  { env0 with
    fs := fun p =>
      if p = "pc" then some (.pem "CERTIFICATE" 11)
      else if p = "pk" then some (.pem "PRIVATE KEY" 12)
      else none }

/-! General lemmas shared by the claim theorems. -/

/-- The public key of a private key is RSA exactly when the private
key is. -/
theorem publicKey_isRSA (k : PrivKey) : (publicKey k).isRSA = k.isRSA := by
  cases k <;> rfl

/-- classifyHosts is the pair of the IP-parsing filterMap and the
filter keeping the tokens that do not parse as IP literals, in input
order. -/
theorem classifyHosts_eq (p : String → Option IPAddr) (l : List String) :
    classifyHosts p l = (l.filterMap p, l.filter fun x => (p x).isNone) := by
  induction l with
  | nil => rfl
  | cons h t ih =>
    simp only [classifyHosts, ih, List.filterMap_cons, List.filter_cons]
    cases hp : p h <;> simp [hp]

/-- The trace of prepare is empty or the single key-generation
event. -/
theorem prepare_trace_shape (env : Env) (host : String) (opts : List OptionF) :
    (prepare env host opts).2 = []
      ∨ ∃ a, (prepare env host opts).2 = [Event.keyGen a] := by
  simp only [prepare]
  split
  · exact Or.inl rfl
  · split
    · exact Or.inl rfl
    · split
      · exact Or.inr ⟨_, rfl⟩
      · exact Or.inr ⟨_, rfl⟩

/-- The parts of the template that do not depend on the CA flag. -/
theorem buildTemplate_base (env : Env) (o : Options) (priv : PrivKey)
    (host : String) (nb : Int) (sn : Nat) :
    (buildTemplate env o priv host nb sn).notBefore = nb
    ∧ (buildTemplate env o priv host nb sn).notAfter = nb + o.validFor
    ∧ (buildTemplate env o priv host nb sn).serialNumber = sn
    ∧ (buildTemplate env o priv host nb sn).extKeyUsage = [.serverAuth]
    ∧ (buildTemplate env o priv host nb sn).basicConstraintsValid = true
    ∧ (buildTemplate env o priv host nb sn).ipAddresses
        = (splitHost host).filterMap env.parseIP
    ∧ (buildTemplate env o priv host nb sn).dnsNames
        = (splitHost host).filter fun x => (env.parseIP x).isNone := by
  unfold buildTemplate
  rw [classifyHosts_eq]
  split <;> split <;> simp

/-- The key-usage bits and CA fields of the template. -/
theorem buildTemplate_flags (env : Env) (o : Options) (priv : PrivKey)
    (host : String) (nb : Int) (sn : Nat) :
    ((buildTemplate env o priv host nb sn).keyUsage &&& keyUsageDigitalSignature ≠ 0)
    ∧ (((buildTemplate env o priv host nb sn).keyUsage &&& keyUsageKeyEncipherment ≠ 0)
        ↔ priv.isRSA = true)
    ∧ (((buildTemplate env o priv host nb sn).keyUsage &&& keyUsageCertSign ≠ 0)
        ↔ o.isCA = true)
    ∧ (buildTemplate env o priv host nb sn).isCA = o.isCA := by
  unfold buildTemplate
  cases hR : priv.isRSA <;> cases hCA : o.isCA <;>
    simp [hR, hCA, keyUsageDigitalSignature, keyUsageKeyEncipherment, keyUsageCertSign] <;>
    decide

/-- The write phase emits only file events, never a signing event. -/
theorem createCert_not_mem_writeArtifacts (env : Env) (dest : String) (o : Options)
    (der : Bytes) (priv : PrivKey) (fs : Fs) (t i : Certificate) (pub : PubKey)
    (s : PrivKey) :
    Event.createCert t i pub s ∉ (writeArtifacts env dest o der priv fs).2.2 := by
  unfold writeArtifacts
  repeat' split
  all_goals simp

/-- Inversion of a successful preparation: the resolved options, the
provenance of the key, and the shape of the template. -/
theorem prepare_ok_inv (env : Env) (host : String) (opts : List OptionF)
    (pr : Prep) (tr : List Event)
    (hp : prepare env host opts = (.ok pr, tr)) :
    pr.o = resolveOptions opts
    ∧ (∃ a, keyAlgoOf (resolveOptions opts) = .ok a
        ∧ genKey env a = some pr.priv ∧ tr = [Event.keyGen a])
    ∧ ∃ nb sn, notBeforeOf env (resolveOptions opts) = .ok nb
        ∧ env.serialRand = some sn
        ∧ pr.tmpl = buildTemplate env (resolveOptions opts) pr.priv host nb sn := by
  simp only [prepare] at hp
  by_cases hh : host = ""
  · rw [if_pos hh] at hp; exact absurd hp (by simp)
  · rw [if_neg hh] at hp
    cases hka : keyAlgoOf (resolveOptions opts) with
    | error e => simp only [hka] at hp; exact absurd hp (by simp)
    | ok algo =>
      simp only [hka] at hp
      cases hg : genKey env algo with
      | none => simp only [hg] at hp; exact absurd hp (by simp)
      | some priv =>
        simp only [hg, Prod.mk.injEq] at hp
        obtain ⟨hpak, htr⟩ := hp
        unfold prepareAfterKey at hpak
        cases hnb : notBeforeOf env (resolveOptions opts) with
        | error e => simp only [hnb] at hpak; exact absurd hpak (by simp)
        | ok nb =>
          simp only [hnb] at hpak
          cases hsn : env.serialRand with
          | none => simp only [hsn] at hpak; exact absurd hpak (by simp)
          | some sn =>
            simp only [hsn] at hpak
            by_cases hpc : (resolveOptions opts).parentCert = ""
            · rw [if_pos hpc] at hpak
              simp only [Except.ok.injEq] at hpak
              subst hpak
              exact ⟨rfl, ⟨algo, rfl, hg, htr.symm⟩, nb, sn, rfl, rfl, rfl⟩
            · rw [if_neg hpc] at hpak
              cases hc : ParsePemCertFile env (resolveOptions opts).parentCert with
              | error e => simp only [hc] at hpak; exact absurd hpak (by simp)
              | ok pc =>
                simp only [hc] at hpak
                cases hk : ParsePemKeyFile env (resolveOptions opts).parentKey with
                | error e => simp only [hk] at hpak; exact absurd hpak (by simp)
                | ok pk =>
                  simp only [hk, Except.ok.injEq] at hpak
                  subst hpak
                  exact ⟨rfl, ⟨algo, rfl, hg, htr.symm⟩, nb, sn, rfl, rfl, rfl⟩

/-- Any signing event in a Generate trace is the one signing call,
with the prepared template, issuer, subject public key and signer. -/
theorem generate_createCert_inv (env : Env) (host dest : String) (opts : List OptionF)
    (t i : Certificate) (pub : PubKey) (s : PrivKey)
    (h : Event.createCert t i pub s ∈ (Generate env host dest opts).trace) :
    ∃ pr tr, prepare env host opts = (.ok pr, tr)
      ∧ t = pr.tmpl ∧ i = pr.parentCert ∧ pub = publicKey pr.priv
      ∧ s = pr.parentKey := by
  unfold Generate at h
  have hshape := prepare_trace_shape env host opts
  rcases hp : prepare env host opts with ⟨res, tr⟩
  rw [hp] at h hshape
  cases res with
  | error e =>
    simp only at h hshape
    rcases hshape with h0 | ⟨a, h0⟩ <;> subst h0 <;> simp at h
  | ok pr =>
    cases hc : env.createCertificate pr.tmpl pr.parentCert (publicKey pr.priv) pr.parentKey with
    | none =>
      simp only [hc, List.mem_append, List.mem_singleton] at h hshape
      rcases h with h | h
      · rcases hshape with h0 | ⟨a, h0⟩ <;> subst h0 <;> simp at h
      · obtain ⟨ht, hi, hpub, hsg⟩ := Event.createCert.inj h
        exact ⟨pr, tr, rfl, ht, hi, hpub, hsg⟩
    | some der =>
      simp only [hc, List.mem_append, List.mem_cons] at h hshape
      rcases h with h | h | h
      · rcases hshape with h0 | ⟨a, h0⟩ <;> subst h0 <;> simp at h
      · obtain ⟨ht, hi, hpub, hsg⟩ := Event.createCert.inj h
        exact ⟨pr, tr, rfl, ht, hi, hpub, hsg⟩
      · exact absurd h (createCert_not_mem_writeArtifacts _ _ _ _ _ _ _ _ _ _)

/-! Claim theorems. -/

/-- C6: for the empty host string, Generate returns the missing-host
error with an empty event trace (so before any key generation or
other cryptographic work) and the file system untouched, whatever
options are given. -/
theorem generate_empty_host (env : Env) (dest : String) (opts : List OptionF) :
    (Generate env "" dest opts).res = .error .missingHost
    ∧ (Generate env "" dest opts).trace = []
    ∧ (Generate env "" dest opts).fs = env.fs := by
  simp [Generate, prepare]

/-- C1: Generate selects the key algorithm by first match on the
elliptic-curve selector: unset selector with the Ed25519 flag gives
Ed25519; unset selector without the flag gives RSA at the configured
bit size; a selector equal to one of the four curve names gives ECDSA
on that curve, the Ed25519 flag being ignored; any other non-empty
selector makes Generate return the unrecognized-curve error with an
empty trace, so no key is generated; and whenever an algorithm is
selected the first event of the run is its key generation. -/
theorem generate_key_selection (env : Env) (host dest : String)
    (opts : List OptionF) (o : Options) (ho : o = resolveOptions opts)
    (hhost : host ≠ "") :
    (o.ecdsaCurve = "" → o.ed25519Key = true → keyAlgoOf o = .ok .ed25519)
    ∧ (o.ecdsaCurve = "" → o.ed25519Key = false → keyAlgoOf o = .ok (.rsa o.rsaBits))
    ∧ (o.ecdsaCurve = CurveP224 → keyAlgoOf o = .ok (.ecdsa .p224))
    ∧ (o.ecdsaCurve = CurveP256 → keyAlgoOf o = .ok (.ecdsa .p256))
    ∧ (o.ecdsaCurve = CurveP384 → keyAlgoOf o = .ok (.ecdsa .p384))
    ∧ (o.ecdsaCurve = CurveP521 → keyAlgoOf o = .ok (.ecdsa .p521))
    ∧ (o.ecdsaCurve ≠ "" → o.ecdsaCurve ≠ CurveP224 → o.ecdsaCurve ≠ CurveP256 →
        o.ecdsaCurve ≠ CurveP384 → o.ecdsaCurve ≠ CurveP521 →
        (Generate env host dest opts).res = .error (.unrecognizedCurve o.ecdsaCurve)
        ∧ (Generate env host dest opts).trace = [])
    ∧ (∀ a, keyAlgoOf o = .ok a →
        (Generate env host dest opts).trace.head? = some (.keyGen a)) := by
  subst ho
  refine ⟨?_, ?_, ?_, ?_, ?_, ?_, ?_, ?_⟩
  · intro h1 h2; simp [keyAlgoOf, h1, h2]
  · intro h1 h2; simp [keyAlgoOf, h1, h2]
  · intro h1; rw [keyAlgoOf, h1]; simp [CurveP224]
  · intro h1; rw [keyAlgoOf, h1]; simp [CurveP224, CurveP256]
  · intro h1; rw [keyAlgoOf, h1]; simp [CurveP224, CurveP256, CurveP384]
  · intro h1; rw [keyAlgoOf, h1]; simp [CurveP224, CurveP256, CurveP384, CurveP521]
  · intro h1 h2 h3 h4 h5
    have hka : keyAlgoOf (resolveOptions opts)
        = .error (.unrecognizedCurve (resolveOptions opts).ecdsaCurve) := by
      rw [keyAlgoOf]
      rw [if_neg h1, if_neg h2, if_neg h3, if_neg h4, if_neg h5]
    constructor
    · simp [Generate, prepare, if_neg hhost, hka]
    · simp [Generate, prepare, if_neg hhost, hka]
  · intro a ha
    simp only [Generate, prepare, if_neg hhost, ha]
    cases hg : genKey env a
    · simp [hg]
    · rename_i priv
      simp only [hg]
      cases hpak : prepareAfterKey env (resolveOptions opts) priv host
      · simp [hpak]
      · rename_i pr
        simp only [hpak]
        cases hc : env.createCertificate pr.tmpl pr.parentCert (publicKey pr.priv) pr.parentKey <;>
          simp [hc]

/-- Witness for C1: with the default options the selector is unset
and the flag false, so the RSA branch at the default bit size is
chosen. -/
theorem generate_key_selection_witness :
    keyAlgoOf (resolveOptions []) = .ok (.rsa 2048) :=
  (generate_key_selection env0 "a" "." [] (resolveOptions []) rfl
    (by decide)).2.1 rfl rfl

/-- C3: every template handed to the signing call has the
DigitalSignature bit set, the KeyEncipherment bit exactly when the
subject public key is RSA, the CertSign bit and the IsCA field
exactly when the resolved CA flag is set, extended key usage exactly
server authentication, and BasicConstraintsValid true. -/
theorem generate_template_flags (env : Env) (host dest : String)
    (opts : List OptionF) (t i : Certificate) (pub : PubKey) (sk : PrivKey)
    (h : Event.createCert t i pub sk ∈ (Generate env host dest opts).trace) :
    (t.keyUsage &&& keyUsageDigitalSignature ≠ 0)
    ∧ ((t.keyUsage &&& keyUsageKeyEncipherment ≠ 0) ↔ pub.isRSA = true)
    ∧ ((t.keyUsage &&& keyUsageCertSign ≠ 0) ↔ (resolveOptions opts).isCA = true)
    ∧ (t.isCA = (resolveOptions opts).isCA)
    ∧ t.extKeyUsage = [ExtKeyUsage.serverAuth]
    ∧ t.basicConstraintsValid = true := by
  obtain ⟨pr, tr, hp, ht, hi, hpub, hsg⟩ :=
    generate_createCert_inv env host dest opts t i pub sk h
  obtain ⟨hO, ⟨a, hka, hg, htr⟩, nb, sn, hnb, hsn, htmpl⟩ :=
    prepare_ok_inv env host opts pr tr hp
  subst ht; subst hpub
  rw [htmpl, publicKey_isRSA]
  have hb := buildTemplate_base env (resolveOptions opts) pr.priv host nb sn
  have hf := buildTemplate_flags env (resolveOptions opts) pr.priv host nb sn
  exact ⟨hf.1, hf.2.1, hf.2.2.1, hf.2.2.2, hb.2.2.2.1, hb.2.2.2.2.1⟩

/-- Witness for C3: the default run generates an RSA key, and the
template signed there carries the DigitalSignature bit. -/
theorem generate_template_flags_witness :
    (buildTemplate env0 (resolveOptions []) (PrivKey.rsa 2048 1) "a" 100 7).keyUsage
      &&& keyUsageDigitalSignature ≠ 0 :=
  (generate_template_flags env0 "a" "." []
    (buildTemplate env0 (resolveOptions []) (PrivKey.rsa 2048 1) "a" 100 7)
    (buildTemplate env0 (resolveOptions []) (PrivKey.rsa 2048 1) "a" 100 7)
    (publicKey (PrivKey.rsa 2048 1)) (PrivKey.rsa 2048 1) (by decide)).1

/-- C5: the template handed to the signing call carries, in token
order, exactly the comma-separated tokens of the host string that
parse as IP literals in its IP list, and all remaining tokens,
unchanged and untrimmed, in its DNS-name list. -/
theorem generate_host_classification (env : Env) (host dest : String)
    (opts : List OptionF) (t i : Certificate) (pub : PubKey) (sk : PrivKey)
    (h : Event.createCert t i pub sk ∈ (Generate env host dest opts).trace) :
    t.ipAddresses = (splitHost host).filterMap env.parseIP
    ∧ t.dnsNames = (splitHost host).filter fun x => (env.parseIP x).isNone := by
  obtain ⟨pr, tr, hp, ht, hi, hpub, hsg⟩ :=
    generate_createCert_inv env host dest opts t i pub sk h
  obtain ⟨hO, ⟨a, hka, hg, htr⟩, nb, sn, hnb, hsn, htmpl⟩ :=
    prepare_ok_inv env host opts pr tr hp
  subst ht
  rw [htmpl]
  have hb := buildTemplate_base env (resolveOptions opts) pr.priv host nb sn
  exact ⟨hb.2.2.2.2.2.1, hb.2.2.2.2.2.2⟩

/-- Witness for C5: a host list with one IP literal and one DNS name
is classified into the two template lists. -/
theorem generate_host_classification_witness :
    (buildTemplate env0 (resolveOptions []) (PrivKey.rsa 2048 1)
        "10.0.0.1,test.example.com" 100 7).dnsNames
      = (splitHost "10.0.0.1,test.example.com").filter
          fun x => (env0.parseIP x).isNone :=
  (generate_host_classification env0 "10.0.0.1,test.example.com" "." []
    (buildTemplate env0 (resolveOptions []) (PrivKey.rsa 2048 1)
      "10.0.0.1,test.example.com" 100 7)
    (buildTemplate env0 (resolveOptions []) (PrivKey.rsa 2048 1)
      "10.0.0.1,test.example.com" 100 7)
    (publicKey (PrivKey.rsa 2048 1)) (PrivKey.rsa 2048 1) (by decide)).2

/-- C4: the validity start is the parsed start date in the fixed
layout "Jan 2 15:04:05 2006" when one is configured and the current
time otherwise; a malformed start date makes Generate fail with the
date-parse error; the validity end is always start plus the
configured duration; and preparation accepts every duration value,
zero and negative included, since the success below holds for any
resolved validFor. -/
theorem generate_validity (env : Env) (host dest : String) (opts : List OptionF)
    (o : Options) (ho : o = resolveOptions opts) (hhost : host ≠ "")
    (a : KeyAlgo) (priv : PrivKey)
    (hk : keyAlgoOf o = .ok a) (hg : genKey env a = some priv) :
    (o.validFrom = "" → notBeforeOf env o = .ok env.now)
    ∧ (∀ tv, o.validFrom ≠ "" →
        env.timeParse "Jan 2 15:04:05 2006" o.validFrom = some tv →
        notBeforeOf env o = .ok tv)
    ∧ (o.validFrom ≠ "" →
        env.timeParse "Jan 2 15:04:05 2006" o.validFrom = none →
        (Generate env host dest opts).res = .error (.dateParseFailed o.validFrom))
    ∧ (∀ nb sn, notBeforeOf env o = .ok nb → env.serialRand = some sn →
        (buildTemplate env o priv host nb sn).notBefore = nb
        ∧ (buildTemplate env o priv host nb sn).notAfter = nb + o.validFor
        ∧ (o.parentCert = "" →
            (prepare env host opts).1 =
              .ok ⟨o, priv, buildTemplate env o priv host nb sn,
                   buildTemplate env o priv host nb sn, priv⟩)) := by
  subst ho
  refine ⟨?_, ?_, ?_, ?_⟩
  · intro h1; simp [notBeforeOf, h1]
  · intro tv h1 h2; simp [notBeforeOf, h1, h2]
  · intro h1 h2
    have hnb : notBeforeOf env (resolveOptions opts)
        = .error (.dateParseFailed (resolveOptions opts).validFrom) := by
      simp [notBeforeOf, h1, h2]
    simp [Generate, prepare, if_neg hhost, hk, hg, prepareAfterKey, hnb]
  · intro nb sn hnb hsn
    have hb := buildTemplate_base env (resolveOptions opts) priv host nb sn
    refine ⟨hb.1, hb.2.1, ?_⟩
    intro hpc
    simp [prepare, if_neg hhost, hk, hg, prepareAfterKey, hnb, hsn, if_pos hpc]

/-- Witness for C4: an explicit start date is parsed to the
configured instant, and a negative duration is accepted: the prepared
template ends before it starts. -/
theorem generate_validity_witness :
    notBeforeOf env0
        (resolveOptions [WithStartDate "Feb 3 10:00:00 2020", WithDuration (-4)])
      = .ok 50
    ∧ (buildTemplate env0
        (resolveOptions [WithStartDate "Feb 3 10:00:00 2020", WithDuration (-4)])
        (PrivKey.rsa 2048 1) "a" 50 7).notAfter = 50 + (-4) :=
  ⟨(generate_validity env0 "a" "."
      [WithStartDate "Feb 3 10:00:00 2020", WithDuration (-4)] _ rfl (by decide)
      (.rsa 2048) (.rsa 2048 1) rfl rfl).2.1 50 (by decide) rfl,
   ((generate_validity env0 "a" "."
      [WithStartDate "Feb 3 10:00:00 2020", WithDuration (-4)] _ rfl (by decide)
      (.rsa 2048) (.rsa 2048 1) rfl rfl).2.2.2 50 7 rfl rfl).2.1⟩

/-- C2: with no parent configured Generate signs the template with
itself as issuer, the fresh key being both subject and signer key;
with parent certificate and key paths configured it loads both
files, failing with the error of the failing sub-step, before the
signing call and with the file system untouched, when either file is
missing or unreadable, not PEM, of the wrong block type, or not
parseable; otherwise it signs with the parsed parent certificate as
issuer and parsed parent key as signer, the fresh key remaining the
subject key. -/
theorem generate_signing_paths (env : Env) (host dest : String)
    (opts : List OptionF) (o : Options) (ho : o = resolveOptions opts)
    (hhost : host ≠ "") (a : KeyAlgo) (priv : PrivKey) (nb : Int) (sn : Nat)
    (hk : keyAlgoOf o = .ok a) (hg : genKey env a = some priv)
    (hd : notBeforeOf env o = .ok nb) (hsr : env.serialRand = some sn)
    (G : GenOut) (hG : G = Generate env host dest opts)
    (t : Certificate) (ht : t = buildTemplate env o priv host nb sn) :
    (o.parentCert = "" → o.parentKey = "" →
      ∃ rest, G.trace
        = .keyGen a :: .createCert t t (publicKey priv) priv :: rest)
    ∧ (o.parentCert ≠ "" → o.parentKey ≠ "" →
        (env.fs o.parentCert = none →
          G.res = .error (.readFileFailed o.parentCert)
          ∧ G.trace = [.keyGen a] ∧ G.fs = env.fs)
        ∧ (env.fs o.parentCert = some .notPem →
          G.res = .error .certPemParseFailed
          ∧ G.trace = [.keyGen a] ∧ G.fs = env.fs)
        ∧ (∀ ty b, env.fs o.parentCert = some (.pem ty b) → ty ≠ "CERTIFICATE" →
          G.res = .error .certPemParseFailed
          ∧ G.trace = [.keyGen a] ∧ G.fs = env.fs)
        ∧ (∀ b, env.fs o.parentCert = some (.pem "CERTIFICATE" b) →
            env.parseCertDer b = none →
          G.res = .error (.certDerParseFailed b)
          ∧ G.trace = [.keyGen a] ∧ G.fs = env.fs)
        ∧ (∀ pc, ParsePemCertFile env o.parentCert = .ok pc →
            (env.fs o.parentKey = none →
              G.res = .error (.readFileFailed o.parentKey)
              ∧ G.trace = [.keyGen a] ∧ G.fs = env.fs)
            ∧ (env.fs o.parentKey = some .notPem →
              G.res = .error .keyPemParseFailed
              ∧ G.trace = [.keyGen a] ∧ G.fs = env.fs)
            ∧ (∀ ty b, env.fs o.parentKey = some (.pem ty b) →
                ty ≠ "PRIVATE KEY" →
              G.res = .error .keyPemParseFailed
              ∧ G.trace = [.keyGen a] ∧ G.fs = env.fs)
            ∧ (∀ b, env.fs o.parentKey = some (.pem "PRIVATE KEY" b) →
                env.parseKeyDer b = none →
              G.res = .error (.keyDerParseFailed b)
              ∧ G.trace = [.keyGen a] ∧ G.fs = env.fs)
            ∧ (∀ pk, ParsePemKeyFile env o.parentKey = .ok pk →
                ∃ rest, G.trace
                  = .keyGen a :: .createCert t pc (publicKey priv) pk :: rest))) := by
  subst ho; subst hG; subst ht
  have gen_err : ∀ e, prepare env host opts = (.error e, [Event.keyGen a]) →
      (Generate env host dest opts).res = .error e
      ∧ (Generate env host dest opts).trace = [Event.keyGen a]
      ∧ (Generate env host dest opts).fs = env.fs := by
    intro e hp; simp [Generate, hp]
  refine ⟨?_, ?_⟩
  · intro h1 _
    have hp : prepare env host opts
        = (.ok ⟨resolveOptions opts, priv,
            buildTemplate env (resolveOptions opts) priv host nb sn,
            buildTemplate env (resolveOptions opts) priv host nb sn, priv⟩,
           [Event.keyGen a]) := by
      simp [prepare, if_neg hhost, hk, hg, prepareAfterKey, hd, hsr, if_pos h1]
    simp only [Generate, hp]
    cases hcc : env.createCertificate
        (buildTemplate env (resolveOptions opts) priv host nb sn)
        (buildTemplate env (resolveOptions opts) priv host nb sn)
        (publicKey priv) priv <;>
      exact ⟨_, rfl⟩
  · intro h1 _
    refine ⟨?_, ?_, ?_, ?_, ?_⟩
    · intro hfs
      refine gen_err _ ?_
      have hpc : ParsePemCertFile env (resolveOptions opts).parentCert
          = .error (.readFileFailed (resolveOptions opts).parentCert) := by
        simp [ParsePemCertFile, hfs]
      simp [prepare, if_neg hhost, hk, hg, prepareAfterKey, hd, hsr, h1, hpc]
    · intro hfs
      refine gen_err _ ?_
      have hpc : ParsePemCertFile env (resolveOptions opts).parentCert
          = .error .certPemParseFailed := by
        simp [ParsePemCertFile, hfs]
      simp [prepare, if_neg hhost, hk, hg, prepareAfterKey, hd, hsr, h1, hpc]
    · intro ty b hfs hty
      refine gen_err _ ?_
      have hpc : ParsePemCertFile env (resolveOptions opts).parentCert
          = .error .certPemParseFailed := by
        simp [ParsePemCertFile, hfs, hty]
      simp [prepare, if_neg hhost, hk, hg, prepareAfterKey, hd, hsr, h1, hpc]
    · intro b hfs hder
      refine gen_err _ ?_
      have hpc : ParsePemCertFile env (resolveOptions opts).parentCert
          = .error (.certDerParseFailed b) := by
        simp [ParsePemCertFile, hfs, hder]
      simp [prepare, if_neg hhost, hk, hg, prepareAfterKey, hd, hsr, h1, hpc]
    · intro pc hpc
      refine ⟨?_, ?_, ?_, ?_, ?_⟩
      · intro hfs
        refine gen_err _ ?_
        have hpk : ParsePemKeyFile env (resolveOptions opts).parentKey
            = .error (.readFileFailed (resolveOptions opts).parentKey) := by
          simp [ParsePemKeyFile, hfs]
        simp [prepare, if_neg hhost, hk, hg, prepareAfterKey, hd, hsr, h1, hpc, hpk]
      · intro hfs
        refine gen_err _ ?_
        have hpk : ParsePemKeyFile env (resolveOptions opts).parentKey
            = .error .keyPemParseFailed := by
          simp [ParsePemKeyFile, hfs]
        simp [prepare, if_neg hhost, hk, hg, prepareAfterKey, hd, hsr, h1, hpc, hpk]
      · intro ty b hfs hty
        refine gen_err _ ?_
        have hpk : ParsePemKeyFile env (resolveOptions opts).parentKey
            = .error .keyPemParseFailed := by
          simp [ParsePemKeyFile, hfs, hty]
        simp [prepare, if_neg hhost, hk, hg, prepareAfterKey, hd, hsr, h1, hpc, hpk]
      · intro b hfs hder
        refine gen_err _ ?_
        have hpk : ParsePemKeyFile env (resolveOptions opts).parentKey
            = .error (.keyDerParseFailed b) := by
          simp [ParsePemKeyFile, hfs, hder]
        simp [prepare, if_neg hhost, hk, hg, prepareAfterKey, hd, hsr, h1, hpc, hpk]
      · intro pk hpk
        have hp : prepare env host opts
            = (.ok ⟨resolveOptions opts, priv,
                buildTemplate env (resolveOptions opts) priv host nb sn, pc, pk⟩,
               [Event.keyGen a]) := by
          simp [prepare, if_neg hhost, hk, hg, prepareAfterKey, hd, hsr, h1, hpc, hpk]
        simp only [Generate, hp]
        cases hcc : env.createCertificate
            (buildTemplate env (resolveOptions opts) priv host nb sn) pc
            (publicKey priv) pk <;>
          exact ⟨_, rfl⟩

/-- Witness for C2: with a parent certificate and key on disk the
signing event uses the parsed parent certificate as issuer and the
parsed parent key as signer. -/
theorem generate_signing_paths_witness :
    ∃ rest, (Generate env1 "a" "." [WithSignByParent "pc" "pk"]).trace
      = Event.keyGen (.rsa 2048)
        :: Event.createCert
            (buildTemplate env1 (resolveOptions [WithSignByParent "pc" "pk"])
              (PrivKey.rsa 2048 1) "a" 100 7)
            certA (publicKey (PrivKey.rsa 2048 1)) (PrivKey.rsa 2048 9) :: rest :=
  ((((generate_signing_paths env1 "a" "." [WithSignByParent "pc" "pk"] _ rfl
      (by decide) (.rsa 2048) (.rsa 2048 1) 100 7 rfl rfl rfl rfl
      _ rfl _ rfl).2 (by decide) (by decide)).2.2.2.2) certA rfl).2.2.2.2
    (PrivKey.rsa 2048 9) rfl

/-- A successful write phase requires every open, write and close
step, and the key marshalling, to have succeeded. -/
theorem writeArtifacts_ok_inv (env : Env) (dest : String) (o : Options)
    (der : Bytes) (priv : PrivKey) (fs : Fs)
    (h : (writeArtifacts env dest o der priv fs).1 = .ok ()) :
    env.openCertOk = true ∧ env.writeCertOk = true ∧ env.closeCertOk = true
    ∧ env.openKeyOk = true ∧ (env.marshalPkcs8 priv).isSome = true
    ∧ env.writeKeyOk = true ∧ env.closeKeyOk = true := by
  cases h1 : env.openCertOk <;> cases h2 : env.writeCertOk <;>
    cases h3 : env.closeCertOk <;> cases h4 : env.openKeyOk <;>
    cases h5 : env.writeKeyOk <;> cases h6 : env.closeKeyOk <;>
    cases hm : env.marshalPkcs8 priv <;>
    simp_all [writeArtifacts]

/-- C7: the certificate is written first, as a single CERTIFICATE
block at the os.Create mode 0666, then the key as a single PRIVATE
KEY block at mode 0600, both opens truncating any existing file; the
call succeeds exactly when every open, write and close step succeeds;
each failure returns immediately, leaving later files untouched; and
a failure after the certificate file is complete performs no
rollback, the certificate staying on disk with the key path
untouched. -/
theorem generate_persistence (env : Env) (host dest : String) (opts : List OptionF)
    (pr : Prep) (tr : List Event)
    (hp : prepare env host opts = (.ok pr, tr)) (der : Bytes)
    (hc : env.createCertificate pr.tmpl pr.parentCert (publicKey pr.priv) pr.parentKey
      = some der)
    (cp kp : String) (hcp : cp = dest ++ "/" ++ pr.o.certFileName)
    (hkp : kp = dest ++ "/" ++ pr.o.keyFileName)
    (G : GenOut) (hG : G = Generate env host dest opts) :
    (∀ pk, env.openCertOk = true → env.writeCertOk = true → env.closeCertOk = true →
      env.openKeyOk = true → env.marshalPkcs8 pr.priv = some pk →
      env.writeKeyOk = true → env.closeKeyOk = true →
      G.res = .ok ()
      ∧ G.trace = tr
          ++ [Event.createCert pr.tmpl pr.parentCert (publicKey pr.priv) pr.parentKey,
              .openFile cp 438, .writeBlock cp "CERTIFICATE" der, .closeFile cp,
              .openFile kp 384, .writeBlock kp "PRIVATE KEY" pk, .closeFile kp]
      ∧ G.fs kp = some (.pem "PRIVATE KEY" pk)
      ∧ (cp ≠ kp → G.fs cp = some (.pem "CERTIFICATE" der)))
    ∧ (G.res = .ok () →
        env.openCertOk = true ∧ env.writeCertOk = true ∧ env.closeCertOk = true
        ∧ env.openKeyOk = true ∧ (env.marshalPkcs8 pr.priv).isSome = true
        ∧ env.writeKeyOk = true ∧ env.closeKeyOk = true)
    ∧ (env.openCertOk = false →
        G.res = .error (.openCertFailed cp) ∧ G.fs = env.fs)
    ∧ (env.openCertOk = true → env.writeCertOk = false →
        G.res = .error (.writeCertFailed cp)
        ∧ G.fs cp = some .notPem
        ∧ (kp ≠ cp → G.fs kp = env.fs kp))
    ∧ (env.openCertOk = true → env.writeCertOk = true → env.closeCertOk = true →
        env.openKeyOk = false →
        G.res = .error (.openKeyFailed kp)
        ∧ G.fs cp = some (.pem "CERTIFICATE" der)
        ∧ (kp ≠ cp → G.fs kp = env.fs kp))
    ∧ (∀ pk, env.openCertOk = true → env.writeCertOk = true → env.closeCertOk = true →
        env.openKeyOk = true → env.marshalPkcs8 pr.priv = some pk →
        env.writeKeyOk = true → env.closeKeyOk = false →
        G.res = .error (.closeKeyFailed kp)) := by
  subst hG; subst hcp; subst hkp
  have hres : (Generate env host dest opts).res
      = (writeArtifacts env dest pr.o der pr.priv env.fs).1 := by
    simp [Generate, hp, hc]
  have hfs : (Generate env host dest opts).fs
      = (writeArtifacts env dest pr.o der pr.priv env.fs).2.1 := by
    simp [Generate, hp, hc]
  have htrace : (Generate env host dest opts).trace
      = tr ++ Event.createCert pr.tmpl pr.parentCert (publicKey pr.priv) pr.parentKey
          :: (writeArtifacts env dest pr.o der pr.priv env.fs).2.2 := by
    simp [Generate, hp, hc]
  refine ⟨?_, ?_, ?_, ?_, ?_, ?_⟩
  · intro pk h1 h2 h3 h4 hm h5 h6
    rw [hres, hfs, htrace]
    simp only [writeArtifacts, h1, h2, h3, h4, hm, h5, h6]
    refine ⟨by simp, by simp, ?_, ?_⟩
    · simp [setFile]
    · intro hne; simp [setFile, if_neg hne, Ne.symm hne]
  · intro hok
    rw [hres] at hok
    exact writeArtifacts_ok_inv env dest pr.o der pr.priv env.fs hok
  · intro h1
    rw [hres, hfs]
    simp [writeArtifacts, h1]
  · intro h1 h2
    rw [hres, hfs]
    simp only [writeArtifacts, h1, h2]
    refine ⟨by simp, by simp [setFile], ?_⟩
    intro hne; simp [setFile, if_neg hne]
  · intro h1 h2 h3 h4
    rw [hres, hfs]
    simp only [writeArtifacts, h1, h2, h3, h4]
    refine ⟨by simp, by simp [setFile], ?_⟩
    intro hne; simp [setFile, if_neg hne]
  · intro pk h1 h2 h3 h4 hm h5 h6
    rw [hres]
    simp [writeArtifacts, h1, h2, h3, h4, hm, h5, h6]

/-- Witness for C7: the fully successful default run returns ok and
leaves both artifact files on disk. -/
theorem generate_persistence_witness :
    (Generate env0 "a" "." []).res = .ok ()
    ∧ (Generate env0 "a" "." []).fs "./key.pem" = some (.pem "PRIVATE KEY" 22) :=
  (fun w => ⟨w.1, w.2.2.1⟩)
  ((generate_persistence env0 "a" "." []
      ⟨resolveOptions [], PrivKey.rsa 2048 1,
        buildTemplate env0 (resolveOptions []) (PrivKey.rsa 2048 1) "a" 100 7,
        buildTemplate env0 (resolveOptions []) (PrivKey.rsa 2048 1) "a" 100 7,
        PrivKey.rsa 2048 1⟩
      [Event.keyGen (.rsa 2048)] rfl 21 rfl
      "./cert.pem" "./key.pem" rfl rfl _ rfl).1 22 rfl rfl rfl rfl rfl rfl rfl)

/-- The exported option constructors of options.go, the only ways a
caller outside the package can build an Option value. -/
inductive ExportedOpt
  | keyFileName (s : String)
  | certFileName (s : String)
  | signByParent (c k : String)
  | startDate (s : String)
  | duration (d : Int)
  | ca
  | rsaBits (n : Int)
  | p224
  | p256
  | p384
  | p521
  | ed25519
deriving DecidableEq

/-- Each exported option as the mutator it constructs. -/
def interpOpt : ExportedOpt → OptionF
  | .keyFileName s => WithKeyFileName s
  | .certFileName s => WithCertFileName s
  | .signByParent c k => WithSignByParent c k
  | .startDate s => WithStartDate s
  | .duration d => WithDuration d
  | .ca => WithCA
  | .rsaBits n => WithRSABits n
  | .p224 => WithP224
  | .p256 => WithP256
  | .p384 => WithP384
  | .p521 => WithP521
  | .ed25519 => WithED25519

/-- How many of the ten configuration fields two values differ on. -/
def fieldsChanged (o o' : Options) : Nat :=
  (if o.parentCert = o'.parentCert then 0 else 1)
  + (if o.parentKey = o'.parentKey then 0 else 1)
  + (if o.certFileName = o'.certFileName then 0 else 1)
  + (if o.keyFileName = o'.keyFileName then 0 else 1)
  + (if o.validFrom = o'.validFrom then 0 else 1)
  + (if o.validFor = o'.validFor then 0 else 1)
  + (if o.rsaBits = o'.rsaBits then 0 else 1)
  + (if o.ecdsaCurve = o'.ecdsaCurve then 0 else 1)
  + (if o.ed25519Key = o'.ed25519Key then 0 else 1)
  + (if o.isCA = o'.isCA then 0 else 1)

/-- The field group each exported option writes; the four curve
options share the selector field, and the parent-signing option
owns the pair of parent-path fields. -/
def optField : ExportedOpt → Nat
  | .keyFileName _ => 0
  | .certFileName _ => 1
  | .signByParent _ _ => 2
  | .startDate _ => 3
  | .duration _ => 4
  | .ca => 5
  | .rsaBits _ => 6
  | .p224 => 7
  | .p256 => 7
  | .p384 => 7
  | .p521 => 7
  | .ed25519 => 8

/-- Counterexample to C8 as stated: the parent-signing option
mutates two fields of the configuration, not exactly one. -/
theorem options_single_field_counterexample :
    fieldsChanged initOptions (interpOpt (.signByParent "ca.pem" "ca.key") initOptions)
      = 2 := by decide

/-- C8 amended: resolution folds the callers options, in order, over
the fixed defaults; every exported option changes at most its own
field, except the parent-signing option which changes at most the
two parent-path fields together; and a later option on the same
field silently overrides an earlier one.  No validation happens: the
resolver is total. -/
theorem options_resolution (opts : List ExportedOpt) :
    resolveOptions (opts.map interpOpt)
      = opts.foldl (fun o e => interpOpt e o) initOptions
    ∧ initOptions
      = ⟨"", "", "cert.pem", "key.pem", "", 365 * 24 * 3600 * 1000000000,
         2048, "", false, false⟩
    ∧ (∀ e o, fieldsChanged o (interpOpt e o)
        ≤ match e with | .signByParent _ _ => 2 | _ => 1)
    ∧ (∀ e e' o, optField e = optField e' →
        interpOpt e' (interpOpt e o) = interpOpt e' o) := by
  refine ⟨?_, rfl, ?_, ?_⟩
  · simp [resolveOptions, List.foldl_map]
  · intro e o
    cases e <;>
      simp [fieldsChanged, interpOpt, WithKeyFileName, WithCertFileName,
        WithSignByParent, WithStartDate, WithDuration, WithCA, WithRSABits,
        WithP224, WithP256, WithP384, WithP521, WithED25519] <;>
      (repeat' split) <;> omega
  · intro e e' o h
    cases e <;> cases e' <;>
      simp_all [optField, interpOpt, WithKeyFileName, WithCertFileName,
        WithSignByParent, WithStartDate, WithDuration, WithCA, WithRSABits,
        WithP224, WithP256, WithP384, WithP521, WithED25519]

/-- Witness for C8: two curve options write the same field, the
later winning. -/
theorem options_resolution_witness :
    interpOpt .p256 (interpOpt .p224 initOptions) = interpOpt .p256 initOptions :=
  (options_resolution []).2.2.2 .p224 .p256 initOptions rfl

/-- C9: Verify propagates the parse error of either certificate
file; on success it verifies the leaf against a trust store holding
exactly the one given root, for the given DNS name at the current
time, returning ok or the verification error wrapping the library
cause. -/
theorem verify_flow (env : Env) (rootPath leafPath dns : String) :
    (∀ e, ParsePemCertFile env rootPath = .error e →
      Verify env rootPath leafPath dns = .error e)
    ∧ (∀ rc e, ParsePemCertFile env rootPath = .ok rc →
        ParsePemCertFile env leafPath = .error e →
        Verify env rootPath leafPath dns = .error e)
    ∧ (∀ rc lc, ParsePemCertFile env rootPath = .ok rc →
        ParsePemCertFile env leafPath = .ok lc →
        (env.verifyChain lc dns [rc] env.now = none →
          Verify env rootPath leafPath dns = .ok ())
        ∧ (∀ c, env.verifyChain lc dns [rc] env.now = some c →
            Verify env rootPath leafPath dns = .error (.verifyFailed c))) := by
  refine ⟨?_, ?_, ?_⟩
  · intro e h; simp [Verify, h]
  · intro rc e h1 h2; simp [Verify, h1, h2]
  · intro rc lc h1 h2
    exact ⟨fun h3 => by simp [Verify, h1, h2, h3],
           fun c h3 => by simp [Verify, h1, h2, h3]⟩

/-- Witness for C9: a certificate verifies against itself as the one
root for its DNS name. -/
theorem verify_flow_witness :
    Verify env1 "pc" "pc" "test.example.com" = .ok () :=
  ((verify_flow env1 "pc" "pc" "test.example.com").2.2 certA certA rfl rfl).1 rfl

/-- A selector value the switch of Generate recognizes. -/
def curveRecognized (s : String) : Prop :=
  s = "" ∨ s = CurveP224 ∨ s = CurveP256 ∨ s = CurveP384 ∨ s = CurveP521

/-- notBeforeOf only ever fails with a date-parse error. -/
theorem notBeforeOf_error (env : Env) (o : Options) (e : GenError)
    (h : notBeforeOf env o = .error e) : ∃ s, e = .dateParseFailed s := by
  unfold notBeforeOf at h
  split at h
  · simp at h
  · cases ht : env.timeParse "Jan 2 15:04:05 2006" o.validFrom with
    | none => rw [ht] at h; exact ⟨_, (Except.error.inj h).symm⟩
    | some t => rw [ht] at h; simp at h

/-- ParsePemCertFile only fails with a read, PEM or DER error. -/
theorem ParsePemCertFile_error (env : Env) (path : String) (e : GenError)
    (h : ParsePemCertFile env path = .error e) :
    e = .readFileFailed path ∨ e = .certPemParseFailed
    ∨ ∃ b, e = .certDerParseFailed b := by
  unfold ParsePemCertFile at h
  cases hf : env.fs path with
  | none => rw [hf] at h; exact Or.inl (Except.error.inj h).symm
  | some d =>
    rw [hf] at h
    cases d with
    | notPem => exact Or.inr (Or.inl (Except.error.inj h).symm)
    | pem ty b =>
      simp only at h
      split at h
      · cases hp : env.parseCertDer b with
        | none => rw [hp] at h; exact Or.inr (Or.inr ⟨b, (Except.error.inj h).symm⟩)
        | some c2 => rw [hp] at h; simp at h
      · exact Or.inr (Or.inl (Except.error.inj h).symm)

/-- ParsePemKeyFile only fails with a read, PEM or DER error. -/
theorem ParsePemKeyFile_error (env : Env) (path : String) (e : GenError)
    (h : ParsePemKeyFile env path = .error e) :
    e = .readFileFailed path ∨ e = .keyPemParseFailed
    ∨ ∃ b, e = .keyDerParseFailed b := by
  unfold ParsePemKeyFile at h
  cases hf : env.fs path with
  | none => rw [hf] at h; exact Or.inl (Except.error.inj h).symm
  | some d =>
    rw [hf] at h
    cases d with
    | notPem => exact Or.inr (Or.inl (Except.error.inj h).symm)
    | pem ty b =>
      simp only at h
      split at h
      · cases hp : env.parseKeyDer b with
        | none => rw [hp] at h; exact Or.inr (Or.inr ⟨b, (Except.error.inj h).symm⟩)
        | some k2 => rw [hp] at h; simp at h
      · exact Or.inr (Or.inl (Except.error.inj h).symm)

/-- The write phase never fails with the unrecognized-curve error. -/
theorem writeArtifacts_error_not_unrec (env : Env) (dest : String) (o : Options)
    (der : Bytes) (priv : PrivKey) (fs : Fs) (c : String) :
    (writeArtifacts env dest o der priv fs).1 ≠ .error (.unrecognizedCurve c) := by
  unfold writeArtifacts
  repeat' split
  all_goals simp

/-- The post-keygen preparation never fails with the
unrecognized-curve error. -/
theorem prepareAfterKey_error_not_unrec (env : Env) (o : Options) (priv : PrivKey)
    (host : String) (c : String) :
    prepareAfterKey env o priv host ≠ .error (.unrecognizedCurve c) := by
  intro h
  unfold prepareAfterKey at h
  cases hnb : notBeforeOf env o with
  | error e =>
    simp only [hnb] at h
    obtain ⟨s, rfl⟩ := notBeforeOf_error env o e hnb
    simp at h
  | ok nb =>
    simp only [hnb] at h
    cases hsn : env.serialRand with
    | none => simp only [hsn] at h; simp at h
    | some sn =>
      simp only [hsn] at h
      split at h
      · simp at h
      · cases hpc : ParsePemCertFile env o.parentCert with
        | error e =>
          simp only [hpc] at h
          obtain h' | h' | ⟨b, h'⟩ := ParsePemCertFile_error env o.parentCert e hpc <;>
            subst h' <;> simp at h
        | ok pc =>
          simp only [hpc] at h
          cases hpk : ParsePemKeyFile env o.parentKey with
          | error e =>
            simp only [hpk] at h
            obtain h' | h' | ⟨b, h'⟩ := ParsePemKeyFile_error env o.parentKey e hpk <;>
              subst h' <;> simp at h
          | ok pk => simp only [hpk] at h; simp at h

/-- If prepare fails with the unrecognized-curve error, the error
came from the key-algorithm switch. -/
theorem prepare_error_unrec (env : Env) (host : String) (opts : List OptionF)
    (c : String) (tr : List Event)
    (hp : prepare env host opts = (.error (.unrecognizedCurve c), tr)) :
    keyAlgoOf (resolveOptions opts) = .error (.unrecognizedCurve c) := by
  simp only [prepare] at hp
  split at hp
  · simp at hp
  · cases hka : keyAlgoOf (resolveOptions opts) with
    | error e =>
      simp only [hka, Prod.mk.injEq, Except.error.injEq] at hp
      rw [hp.1]
    | ok algo =>
      simp only [hka] at hp
      cases hg : genKey env algo with
      | none => simp only [hg] at hp; simp at hp
      | some priv =>
        simp only [hg, Prod.mk.injEq] at hp
        exact absurd hp.1
          (prepareAfterKey_error_not_unrec env (resolveOptions opts) priv host c)

/-- If Generate returns the unrecognized-curve error, it is the
error of the key-algorithm switch on the resolved options. -/
theorem generate_unrec_inv (env : Env) (host dest : String) (opts : List OptionF)
    (c : String)
    (h : (Generate env host dest opts).res = .error (.unrecognizedCurve c)) :
    keyAlgoOf (resolveOptions opts) = .error (.unrecognizedCurve c) := by
  unfold Generate at h
  rcases hp : prepare env host opts with ⟨res, tr⟩
  rw [hp] at h
  cases res with
  | error e =>
    simp only at h
    have he : e = .unrecognizedCurve c := Except.error.inj h
    subst he
    exact prepare_error_unrec env host opts c tr hp
  | ok pr =>
    cases hc : env.createCertificate pr.tmpl pr.parentCert (publicKey pr.priv)
        pr.parentKey with
    | none => simp only [hc] at h; simp at h
    | some der =>
      simp only [hc] at h
      exact absurd h (writeArtifacts_error_not_unrec env dest pr.o der pr.priv env.fs c)

/-- A recognized selector never takes the failing branch of the
switch. -/
theorem keyAlgoOf_recognized (o : Options) (h : curveRecognized o.ecdsaCurve)
    (c : String) : keyAlgoOf o ≠ .error (.unrecognizedCurve c) := by
  rcases h with h | h | h | h | h <;>
    simp [keyAlgoOf, h, CurveP224, CurveP256, CurveP384, CurveP521] <;>
    split <;> simp

/-- Folding exported options preserves a recognized selector. -/
theorem resolve_curveRecognized (l : List ExportedOpt) :
    curveRecognized (resolveOptions (l.map interpOpt)).ecdsaCurve := by
  rw [resolveOptions, List.foldl_map]
  suffices h : ∀ o : Options, curveRecognized o.ecdsaCurve →
      curveRecognized ((l.foldl (fun o e => interpOpt e o) o)).ecdsaCurve from
    h initOptions (Or.inl rfl)
  induction l with
  | nil => intro o h; exact h
  | cons e t ih =>
    intro o h
    rw [List.foldl_cons]
    refine ih _ ?_
    cases e <;>
      first
        | exact h
        | exact Or.inr (Or.inl rfl)
        | exact Or.inr (Or.inr (Or.inl rfl))
        | exact Or.inr (Or.inr (Or.inr (Or.inl rfl)))
        | exact Or.inr (Or.inr (Or.inr (Or.inr rfl)))

/-- C10: every curve-setting exported option writes one of the four
recognized constants, no other exported option touches the selector,
and hence no option list built from the exported options can drive
Generate into the unrecognized-curve error. -/
theorem exported_options_no_unrecognized_curve (l : List ExportedOpt) (env : Env)
    (host dest : String) :
    (∀ e o, (interpOpt e o).ecdsaCurve = o.ecdsaCurve
      ∨ (interpOpt e o).ecdsaCurve = CurveP224
      ∨ (interpOpt e o).ecdsaCurve = CurveP256
      ∨ (interpOpt e o).ecdsaCurve = CurveP384
      ∨ (interpOpt e o).ecdsaCurve = CurveP521)
    ∧ curveRecognized (resolveOptions (l.map interpOpt)).ecdsaCurve
    ∧ ∀ c, (Generate env host dest (l.map interpOpt)).res
        ≠ .error (.unrecognizedCurve c) := by
  refine ⟨?_, resolve_curveRecognized l, ?_⟩
  · intro e o
    cases e <;>
      first
        | exact Or.inl rfl
        | exact Or.inr (Or.inl rfl)
        | exact Or.inr (Or.inr (Or.inl rfl))
        | exact Or.inr (Or.inr (Or.inr (Or.inl rfl)))
        | exact Or.inr (Or.inr (Or.inr (Or.inr rfl)))
  · intro c h
    exact keyAlgoOf_recognized _ (resolve_curveRecognized l) c
      (generate_unrec_inv env host dest _ c h)

/-- Witness for C10: a run with a curve option cannot produce the
unrecognized-curve error. -/
theorem exported_options_no_unrecognized_curve_witness :
    (Generate env0 "a" "." ([ExportedOpt.p384].map interpOpt)).res
      ≠ .error (.unrecognizedCurve "X") :=
  (exported_options_no_unrecognized_curve [.p384] env0 "a" ".").2.2 "X"

end GCert
